import Mathlib

/-!
Verification of the action dispatch engine, action registry and connection
supervisor of a mesh-radio bot.  The Python values handled by the engine
(interface handle, node number, packet dict, database connection) are opaque
to the dispatch logic, so they are modelled by a single type parameter `α`.
-/

namespace MeshtasticBot

/-- An action module as held in `ActionManager.actions`
(src/actions/manager.py).  Python `hasattr` checks become the `has*` flags;
the value a zero-argument capability returns during one dispatch pass is the
corresponding `Bool` field; `executeParams` is the parameter-name list of
`inspect.signature(module.execute).parameters`; `executeRaises` records
whether `execute` raises when invoked in this pass; `getInfo` is the dict
returned by `get_info`, modelled as a string-keyed association list. -/
structure ActionModule where
  name : String
  hasShouldRun : Bool
  shouldRun : Bool
  hasShouldRunOnPacket : Bool
  shouldRunOnPacket : Bool
  executeParams : List String
  executeRaises : Bool
  hasGetInfo : Bool
  getInfo : List (String × String)
deriving Repr, DecidableEq

/-- The argument set handed to `module.execute(interface, my_node_num,
**kwargs)` (manager.py lines 83-94).  `packetKw = none` means the `packet`
keyword argument was omitted; `packetKw = some v` means it was passed with
value `v` (which is itself `none` when Python passes `packet=None`).
Same for `connKw`. -/
structure ExecArgs (α : Type) where
  iface : α
  myNodeNum : α
  packetKw : Option (Option α)
  connKw : Option (Option α)
deriving Repr, DecidableEq

/-- Observable events of one dispatch pass of `ActionManager.run_actions`:
calls to the eligibility capabilities, invocations of `execute`, and the
per-action `except` handler firing. -/
inductive DispatchEvent (α : Type) where
  | calledShouldRunOnPacket (action : String) (result : Bool)
  | calledShouldRun (action : String) (result : Bool)
  | executed (action : String) (args : ExecArgs α)
  | caughtError (action : String)
deriving Repr, DecidableEq

/-- Eligibility determination for one action (manager.py lines 61-79):
on a packet, `should_run_on_packet` is preferred; an action without it falls
back to `should_run()` combined with the `'packet' in sig.parameters` check;
on a tick (no packet) only `should_run()` is consulted.  Returns the trace of
eligibility-capability calls plus the resulting `should_execute` flag. -/
def eligibilityStep {α : Type} (a : ActionModule) (packet : Option α) :
    List (DispatchEvent α) × Bool :=
  match packet with
  | some _ =>
    if a.hasShouldRunOnPacket then
      ([DispatchEvent.calledShouldRunOnPacket a.name a.shouldRunOnPacket],
        a.shouldRunOnPacket)
    else if a.hasShouldRun then
      ([DispatchEvent.calledShouldRun a.name a.shouldRun],
        a.shouldRun && a.executeParams.contains "packet")
    else ([], false)
  | none =>
    if a.hasShouldRun then
      ([DispatchEvent.calledShouldRun a.name a.shouldRun], a.shouldRun)
    else ([], false)

/-- The kwargs construction of manager.py lines 83-94: `interface` and
`my_node_num` are always positional; `packet` and `conn` keywords are added
exactly when the corresponding name occurs in the `execute` signature. -/
def execKwargs {α : Type} (iface myNodeNum : α) (packet conn : Option α)
    (a : ActionModule) : ExecArgs α :=
  ⟨iface, myNodeNum,
    if a.executeParams.contains "packet" then some packet else none,
    if a.executeParams.contains "conn" then some conn else none⟩

/-- The body of the per-action `try` block (manager.py lines 60-102):
eligibility, then invocation when eligible.  The `Bool` component records
whether an exception escaped the body (i.e. `execute` raised). -/
def actionIterBody {α : Type} (iface myNodeNum : α) (packet conn : Option α)
    (a : ActionModule) : List (DispatchEvent α) × Bool :=
  let elig := eligibilityStep a packet
  if elig.2 then
    (elig.1 ++
      [DispatchEvent.executed a.name (execKwargs iface myNodeNum packet conn a)],
      a.executeRaises)
  else (elig.1, false)

/-- One loop iteration of `run_actions` including the `except` handler
(manager.py lines 103-105): an exception raised in the body is converted into
a logged `caughtError` event and never escapes the iteration. -/
def runOneAction {α : Type} (iface myNodeNum : α) (packet conn : Option α)
    (a : ActionModule) : List (DispatchEvent α) :=
  let body := actionIterBody iface myNodeNum packet conn a
  if body.2 then body.1 ++ [DispatchEvent.caughtError a.name] else body.1

/-- `ActionManager.run_actions` (manager.py lines 57-105): iterate the
registry in order, dispatching each action with per-action fault isolation.
The result is the full observable trace of the pass; it is a total function,
so no action failure can abort the pass. -/
def run_actions {α : Type} (iface myNodeNum : α) (packet conn : Option α) :
    List ActionModule → List (DispatchEvent α)
  | [] => []
  | a :: rest =>
    runOneAction iface myNodeNum packet conn a ++
      run_actions iface myNodeNum packet conn rest

/-- Helper: the trace of a pass over a concatenated registry splits. -/
theorem run_actions_append {α : Type} (iface myNodeNum : α)
    (packet conn : Option α) (xs ys : List ActionModule) :
    run_actions iface myNodeNum packet conn (xs ++ ys) =
      run_actions iface myNodeNum packet conn xs ++
        run_actions iface myNodeNum packet conn ys := by
  induction xs with
  | nil => simp [run_actions]
  | cons a t ih => simp [run_actions, ih]

/-- Helper: closed form of one action dispatch. -/
theorem runOneAction_eq {α : Type} (iface myNodeNum : α)
    (packet conn : Option α) (a : ActionModule) :
    runOneAction iface myNodeNum packet conn a =
      (eligibilityStep a packet).1 ++
        (if (eligibilityStep a packet).2 then
          DispatchEvent.executed a.name
              (execKwargs iface myNodeNum packet conn a) ::
            (if a.executeRaises then [DispatchEvent.caughtError a.name]
             else [])
         else []) := by
  unfold runOneAction actionIterBody
  cases h : (eligibilityStep a packet).2 <;>
    cases hr : a.executeRaises <;> simp [h, hr]

/-- A candidate action module found by the directory scan of
`ActionManager.load_actions` (manager.py lines 24-55).
`instantiationRaises` models `spec.loader.exec_module(module)` raising;
`hasExecute` models `hasattr(module, 'execute')`; on success the module's
contents are `module` (whose `name` is the file stem). -/
structure Candidate where
  instantiationRaises : Bool
  hasExecute : Bool
  module : ActionModule
deriving Repr, DecidableEq

/-- Log events emitted while loading candidates (manager.py lines 47-55). -/
inductive LoadEvent where
  | loaded (name : String)
  | skippedMissingFunctions (name : String)
  | failedToLoad (name : String)
deriving Repr, DecidableEq

/-- Python's `name.startswith("__")`, written over the character list. -/
def startsWithDunder (s : String) : Bool :=
  match s.data with
  | '_' :: '_' :: _ => true
  | _ => false

/-- The file filter of manager.py lines 32-34: files whose stem starts with
`__` and the manager itself are not candidates. -/
def isLoadableFile (c : Candidate) : Bool :=
  !startsWithDunder c.module.name && c.module.name != "manager"

/-- `ActionManager.load_actions` (manager.py lines 24-55): for each
candidate file, try to instantiate it; a candidate that raises is skipped
with an error logged; an instantiated module is admitted exactly when it has
both a `should_run` and an `execute` attribute, otherwise it is skipped with
a warning; loading always continues with the rest.  Returns the registry (in
insertion order) and the load log. -/
def load_actions : List Candidate → List ActionModule × List LoadEvent
  | [] => ([], [])
  | c :: rest =>
    let r := load_actions rest
    if isLoadableFile c then
      if c.instantiationRaises then
        (r.1, LoadEvent.failedToLoad c.module.name :: r.2)
      else if c.module.hasShouldRun && c.hasExecute then
        (c.module :: r.1, LoadEvent.loaded c.module.name :: r.2)
      else
        (r.1, LoadEvent.skippedMissingFunctions c.module.name :: r.2)
    else r

/-- The admission predicate as the specification words it, for refinement
comparison with `load_actions`: a candidate is admitted iff it instantiates
without error and exposes at least an event-eligibility-or-time-eligibility
capability together with an execution capability. -/
def specAdmits (c : Candidate) : Bool :=
  !c.instantiationRaises &&
    (c.module.hasShouldRun || c.module.hasShouldRunOnPacket) && c.hasExecute

/-- The admission predicate actually implemented by manager.py line 44:
`hasattr(module, 'should_run') and hasattr(module, 'execute')`. -/
def codeAdmits (c : Candidate) : Bool :=
  !c.instantiationRaises && c.module.hasShouldRun && c.hasExecute

/-- The load-log event a single loadable candidate produces. -/
def loadEventFor (c : Candidate) : LoadEvent :=
  if c.instantiationRaises then LoadEvent.failedToLoad c.module.name
  else if c.module.hasShouldRun && c.hasExecute then
    LoadEvent.loaded c.module.name
  else LoadEvent.skippedMissingFunctions c.module.name

/-- `ActionManager.get_actions_info` (manager.py lines 107-115): one entry
per loaded action, the module's own `get_info()` when present, otherwise the
hard-coded fallback dict. -/
def get_actions_info : List ActionModule → List (String × List (String × String))
  | [] => []
  | a :: rest =>
    (a.name,
      if a.hasGetInfo then a.getInfo
      else [("name", a.name), ("description", "No description available")]) ::
      get_actions_info rest

/-! Connection supervisor (src/main.py lines 78-177). -/

/-- The exception classes distinguished by the handlers of main.py lines
144-177: the `(OSError, ConnectionError, BrokenPipeError)` family,
`KeyboardInterrupt`, and every other `Exception`. -/
inductive PyExc where
  | connIOError
  | keyboardInterrupt
  | otherError
deriving Repr, DecidableEq

/-- Outcome of the connection attempt of main.py lines 83-105: the interface
constructor returns a handle, returns a falsy value (the `if not iface`
branch), or raises. -/
inductive ConnectOutcome where
  | success
  | falsy
  | raises (e : PyExc)
deriving Repr, DecidableEq

/-- Environment behaviour for one iteration of the outer `while True` loop:
how the connect attempt goes, the exception that eventually exits the inner
loop (heartbeat failure, broken pipe, keyboard interrupt, ...; the inner
`while True` of lines 131-142 only exits by raising), and whether
`iface.close()` raises an IO error during teardown. -/
structure IterEnv where
  connect : ConnectOutcome
  inner : PyExc
  closeRaisesIO : Bool
deriving Repr, DecidableEq

/-- The configuration read at startup (main.py lines 31-34). -/
structure SupConfig where
  connectionType : String
  port : String
  deviceIp : Option String
deriving Repr, DecidableEq

/-- Observable supervisor events of one outer-loop iteration. -/
inductive SupEvent where
  | connecting
  | configError
  | connected
  | subscribed
  | closeAttempted
  | sleptBackoff (seconds : Nat)
  | closedDb
deriving Repr, DecidableEq

/-- How one outer-loop iteration ends: `retry` is `continue` (a new
connection attempt follows), `exitConfig` is the `return` on a configuration
error, `exitShutdown` is the `break` on `KeyboardInterrupt`. -/
inductive StepResult where
  | retry
  | exitConfig
  | exitShutdown
deriving Repr, DecidableEq

/-- The connect-and-run part of one iteration, after the configuration
dispatch picked a transport (main.py lines 86, 94, 100-177).  Teardown in
the handlers is best-effort: `iface.close()` is attempted whenever a handle
exists and IO errors from it are swallowed (lines 147-152, 158-163,
170-175), so the result does not depend on `closeRaisesIO`. -/
def connectPhase (env : IterEnv) : List SupEvent × StepResult :=
  match env.connect with
  | ConnectOutcome.raises PyExc.connIOError =>
    ([SupEvent.connecting, SupEvent.sleptBackoff 30], StepResult.retry)
  | ConnectOutcome.raises PyExc.otherError =>
    ([SupEvent.connecting, SupEvent.sleptBackoff 30], StepResult.retry)
  | ConnectOutcome.raises PyExc.keyboardInterrupt =>
    ([SupEvent.connecting, SupEvent.closedDb], StepResult.exitShutdown)
  | ConnectOutcome.falsy =>
    ([SupEvent.connecting, SupEvent.sleptBackoff 30], StepResult.retry)
  | ConnectOutcome.success =>
    match env.inner with
    | PyExc.connIOError =>
      ([SupEvent.connecting, SupEvent.connected, SupEvent.subscribed,
        SupEvent.closeAttempted, SupEvent.sleptBackoff 30], StepResult.retry)
    | PyExc.otherError =>
      ([SupEvent.connecting, SupEvent.connected, SupEvent.subscribed,
        SupEvent.closeAttempted, SupEvent.sleptBackoff 30], StepResult.retry)
    | PyExc.keyboardInterrupt =>
      ([SupEvent.connecting, SupEvent.connected, SupEvent.subscribed,
        SupEvent.closeAttempted, SupEvent.closedDb], StepResult.exitShutdown)

/-- One iteration of the outer `while True` loop of main.py lines 78-177:
the serial branch connects directly; the ip branch first requires
`DEVICE_IP` and returns with a diagnostic when missing; an unknown
connection type returns with a diagnostic. -/
def superviseStep (cfg : SupConfig) (env : IterEnv) :
    List SupEvent × StepResult :=
  if cfg.connectionType == "serial" then connectPhase env
  else if cfg.connectionType == "ip" then
    match cfg.deviceIp with
    | none => ([SupEvent.connecting, SupEvent.configError], StepResult.exitConfig)
    | some _ => connectPhase env
  else ([SupEvent.connecting, SupEvent.configError], StepResult.exitConfig)

/-- The outer loop itself, driven by a finite schedule of per-iteration
environment behaviours: iterate until an iteration ends the loop or the
schedule runs out (second component `none` means still running). -/
def supervise (cfg : SupConfig) : List IterEnv → List SupEvent × Option StepResult
  | [] => ([], none)
  | e :: rest =>
    match (superviseStep cfg e).2 with
    | StepResult.retry =>
      ((superviseStep cfg e).1 ++ (supervise cfg rest).1,
        (supervise cfg rest).2)
    | StepResult.exitConfig =>
      ((superviseStep cfg e).1, some StepResult.exitConfig)
    | StepResult.exitShutdown =>
      ((superviseStep cfg e).1, some StepResult.exitShutdown)

/-- A configuration on which main.py reaches the connect attempt instead of
returning with a diagnostic. -/
def validConfig (cfg : SupConfig) : Bool :=
  cfg.connectionType == "serial" ||
    (cfg.connectionType == "ip" && cfg.deviceIp.isSome)

/-- Whether the iteration's exception is the explicit shutdown signal
(`KeyboardInterrupt`). -/
def shutdownSignal (env : IterEnv) : Bool :=
  match env.connect with
  | ConnectOutcome.raises PyExc.keyboardInterrupt => true
  | ConnectOutcome.success =>
    match env.inner with
    | PyExc.keyboardInterrupt => true
    | _ => false
  | _ => false

/-! Concrete modules, mirroring the action files of the repository, used to
instantiate the theorems below on closed inputs. -/

/-- src/actions/ping_pong.py: `should_run` always true, no
`should_run_on_packet`, `execute(interface, my_node_num, packet=None)`. -/
def pingModule : ActionModule :=
  ⟨"ping_pong", true, true, false, false,
    ["interface", "my_node_num", "packet"], false, true,
    [("name", "Ping Pong Responder"),
     ("description", "Responds to ping direct messages with pong")]⟩

/-- src/actions/welcome_message.py: `should_run` returns false,
`should_run_on_packet` returns true,
`execute(interface, my_node_num, packet=None, conn=None)`. -/
def welcomeModule : ActionModule :=
  ⟨"welcome_message", true, false, true, true,
    ["interface", "my_node_num", "packet", "conn"], false, true,
    [("name", "Welcome Message"),
     ("description", "Sends a welcome message to new RF nodes")]⟩

/-- A legacy-shaped module whose `execute` raises during this pass. -/
def failingModule : ActionModule :=
  ⟨"boom", true, true, false, false, ["interface", "my_node_num"], true,
    false, []⟩

/-- A module exposing only the event-eligibility capability together with
`execute`, but no `should_run`. -/
def packetOnlyModule : ActionModule :=
  ⟨"packet_only", false, false, true, true,
    ["interface", "my_node_num", "packet"], false, false, []⟩

/-- A candidate that instantiates fine and has `execute`, wrapping
`packetOnlyModule`. -/
def packetOnlyCandidate : Candidate :=
  ⟨false, true, packetOnlyModule⟩

/-- A loaded module providing no `get_info` metadata. -/
def noInfoModule : ActionModule :=
  ⟨"bare", true, true, false, false, ["interface", "my_node_num"], false,
    false, []⟩

/-! Claim theorems. -/

/-- C1: in every dispatch pass, an exception raised by an action's execute
capability is caught inside the pass (converted into a logged `caughtError`
event, never escaping `run_actions`, which is total), and every action is
dispatched independently of the others: the pass over `pre ++ b :: post`
contains the full dispatch of `b` — its eligibility-check events and, when
eligible, its invocation — regardless of failures in `pre`. -/
theorem run_actions_isolates_failures {α : Type} (iface myNodeNum : α)
    (packet conn : Option α) (pre post : List ActionModule)
    (b : ActionModule) :
    run_actions iface myNodeNum packet conn (pre ++ b :: post) =
        run_actions iface myNodeNum packet conn pre ++
          runOneAction iface myNodeNum packet conn b ++
          run_actions iface myNodeNum packet conn post
    ∧ (∃ t, runOneAction iface myNodeNum packet conn b =
        (eligibilityStep b packet).1 ++ t)
    ∧ ((actionIterBody iface myNodeNum packet conn b).2 = true →
        runOneAction iface myNodeNum packet conn b =
          (actionIterBody iface myNodeNum packet conn b).1 ++
            [DispatchEvent.caughtError b.name])
    ∧ ((eligibilityStep b packet).2 = true →
        DispatchEvent.executed b.name
            (execKwargs iface myNodeNum packet conn b) ∈
          runOneAction iface myNodeNum packet conn b) := by
  refine ⟨?_, ?_, ?_, ?_⟩
  · rw [run_actions_append]
    simp [run_actions, List.append_assoc]
  · rw [runOneAction_eq]
    exact ⟨_, rfl⟩
  · intro h
    unfold runOneAction
    simp [h]
  · intro h
    rw [runOneAction_eq, h]
    simp

/-- C1 witness: with the concrete raising module, the exception is caught
and logged inside the pass. -/
theorem run_actions_isolates_failures_witness :
    runOneAction (0 : Nat) 1 none none failingModule =
      (actionIterBody (0 : Nat) 1 none none failingModule).1 ++
        [DispatchEvent.caughtError "boom"] :=
  (run_actions_isolates_failures 0 1 none none [] [] failingModule).2.2.1
    (by decide)

/-- C2: on a `Packet` event, an action exposing `should_run_on_packet` has
its eligibility decided by that capability alone, and its time-eligibility
capability `should_run` is never invoked during its dispatch. -/
theorem packet_event_uses_event_eligibility_only {α : Type}
    (iface myNodeNum pk : α) (conn : Option α) (a : ActionModule)
    (h : a.hasShouldRunOnPacket = true) :
    eligibilityStep a (some pk) =
        ([DispatchEvent.calledShouldRunOnPacket a.name a.shouldRunOnPacket],
          a.shouldRunOnPacket)
    ∧ (∀ nm r, DispatchEvent.calledShouldRun nm r ∉
        runOneAction iface myNodeNum (some pk) conn a) := by
  constructor
  · simp [eligibilityStep, h]
  · intro nm r
    rw [runOneAction_eq]
    simp [eligibilityStep, h]

/-- C2 witness: the welcome-message module on a concrete packet. -/
theorem packet_event_uses_event_eligibility_only_witness :
    eligibilityStep (α := Nat) welcomeModule (some 5) =
      ([DispatchEvent.calledShouldRunOnPacket "welcome_message" true],
        true) :=
  (packet_event_uses_event_eligibility_only 0 1 5 none welcomeModule rfl).1

/-- C3: on a `Tick` dispatch (no packet), an action fires iff it exposes
`should_run` and that capability returns true; `should_run_on_packet` is
never consulted. -/
theorem tick_uses_time_eligibility_only {α : Type} (iface myNodeNum : α)
    (conn : Option α) (a : ActionModule) :
    ((∃ args, DispatchEvent.executed a.name args ∈
        runOneAction iface myNodeNum none conn a) ↔
      (a.hasShouldRun && a.shouldRun) = true)
    ∧ (∀ nm r, DispatchEvent.calledShouldRunOnPacket nm r ∉
        runOneAction iface myNodeNum none conn a) := by
  constructor
  · rw [runOneAction_eq]
    cases h1 : a.hasShouldRun <;> cases h2 : a.shouldRun <;>
      cases hr : a.executeRaises <;>
        simp [eligibilityStep, h1, h2, hr]
  · intro nm r
    rw [runOneAction_eq]
    cases h1 : a.hasShouldRun <;> cases h2 : a.shouldRun <;>
      cases hr : a.executeRaises <;>
        simp [eligibilityStep, h1, h2, hr]

/-- C3 witness: the ping-pong module fires on a tick (its `should_run`
returns true), instantiated at concrete values. -/
theorem tick_uses_time_eligibility_only_witness :
    ∃ args, DispatchEvent.executed "ping_pong" args ∈
      runOneAction (0 : Nat) 1 none none pingModule :=
  (tick_uses_time_eligibility_only 0 1 none pingModule).1.mpr (by decide)

/-- Helper: the only invocation event an action's dispatch can contain is
its own, with the canonical kwargs, and only when it was eligible. -/
theorem executed_mem_runOneAction {α : Type} (iface myNodeNum : α)
    (packet conn : Option α) (a : ActionModule) (nm : String)
    (args : ExecArgs α)
    (h : DispatchEvent.executed nm args ∈
      runOneAction iface myNodeNum packet conn a) :
    nm = a.name ∧ args = execKwargs iface myNodeNum packet conn a ∧
      (eligibilityStep a packet).2 = true := by
  rw [runOneAction_eq] at h
  cases packet <;>
    cases h1 : a.hasShouldRun <;> cases h2 : a.shouldRun <;>
      cases h3 : a.hasShouldRunOnPacket <;> cases h4 : a.shouldRunOnPacket <;>
        cases hr : a.executeRaises <;>
          simp_all [eligibilityStep]

/-- C4: every invocation in a dispatch pass passes the connection handle and
own-node identity, passes the event payload keyword iff the execute
capability declares a `packet` parameter, and passes the persistence handle
keyword iff it declares a `conn` parameter; an action declaring neither gets
neither (its kwargs are both omitted), whatever the event. -/
theorem exec_invocation_args_match_declared_params {α : Type}
    (iface myNodeNum : α) (packet conn : Option α)
    (actions : List ActionModule) (nm : String) (args : ExecArgs α)
    (h : DispatchEvent.executed nm args ∈
      run_actions iface myNodeNum packet conn actions) :
    ∃ a, a ∈ actions ∧ a.name = nm ∧ args.iface = iface ∧
      args.myNodeNum = myNodeNum ∧
      args.packetKw =
        (if a.executeParams.contains "packet" then some packet else none) ∧
      args.connKw =
        (if a.executeParams.contains "conn" then some conn else none) := by
  induction actions with
  | nil => simp [run_actions] at h
  | cons a rest ih =>
    rw [run_actions, List.mem_append] at h
    rcases h with h | h
    · obtain ⟨hnm, hargs, _⟩ :=
        executed_mem_runOneAction iface myNodeNum packet conn a nm args h
      exact ⟨a, List.mem_cons_self a rest, hnm.symm, by simp [hargs, execKwargs]⟩
    · obtain ⟨b, hb, hrest⟩ := ih h
      exact ⟨b, List.mem_cons_of_mem a hb, hrest⟩

/-- C4 witness: the welcome-message module on a packet event, invoked with
both optional keywords since its execute declares both. -/
theorem exec_invocation_args_witness :
    ∃ a, a ∈ [welcomeModule] ∧ a.name = "welcome_message" ∧
      (execKwargs (0 : Nat) 1 (some 5) (some 7) welcomeModule).iface = 0 ∧
      (execKwargs (0 : Nat) 1 (some 5) (some 7) welcomeModule).myNodeNum = 1 ∧
      (execKwargs (0 : Nat) 1 (some 5) (some 7) welcomeModule).packetKw =
        (if a.executeParams.contains "packet" then some (some 5) else none) ∧
      (execKwargs (0 : Nat) 1 (some 5) (some 7) welcomeModule).connKw =
        (if a.executeParams.contains "conn" then some (some 7) else none) :=
  exec_invocation_args_match_declared_params 0 1 (some 5) (some 7)
    [welcomeModule] "welcome_message"
    (execKwargs 0 1 (some 5) (some 7) welcomeModule) (by decide)

/-- C5: the compatibility shim — on a `Packet` event, an action without
`should_run_on_packet` fires iff it exposes `should_run`, that capability
returns true, and its execute signature declares the `packet` parameter; in
particular it does not fire when the `packet` parameter is absent even with
time-eligibility true. -/
theorem legacy_shim_on_packet {α : Type} (iface myNodeNum pk : α)
    (conn : Option α) (a : ActionModule)
    (h : a.hasShouldRunOnPacket = false) :
    (eligibilityStep a (some pk)).2 =
        (a.hasShouldRun && a.shouldRun && a.executeParams.contains "packet")
    ∧ ((∃ args, DispatchEvent.executed a.name args ∈
        runOneAction iface myNodeNum (some pk) conn a) ↔
      (a.hasShouldRun && a.shouldRun &&
        a.executeParams.contains "packet") = true) := by
  constructor
  · cases h1 : a.hasShouldRun <;> cases h2 : a.shouldRun <;>
      simp [eligibilityStep, h, h1, h2]
  · rw [runOneAction_eq]
    cases h1 : a.hasShouldRun <;> cases h2 : a.shouldRun <;>
      cases hp : a.executeParams.contains "packet" <;>
        cases hr : a.executeRaises <;>
          simp_all [eligibilityStep, h, h1, h2]

/-- C5 witness: the ping-pong module (legacy shape, declares `packet`)
fires on a concrete packet through the shim. -/
theorem legacy_shim_on_packet_witness :
    ∃ args, DispatchEvent.executed "ping_pong" args ∈
      runOneAction (0 : Nat) 1 (some 5) none pingModule :=
  (legacy_shim_on_packet 0 1 5 none pingModule rfl).2.mpr (by decide)

/-- C9: on a tick dispatch, an action whose execute declares the `packet`
parameter receives the keyword explicitly bound to the null payload
(`some none`, i.e. Python `packet=None`) rather than having it omitted
(`none`), and when eligible it is indeed invoked with those kwargs. -/
theorem tick_packet_param_bound_to_none {α : Type} (iface myNodeNum : α)
    (conn : Option α) (a : ActionModule)
    (h : a.executeParams.contains "packet" = true) :
    (execKwargs iface myNodeNum none conn a).packetKw = some none
    ∧ some (none : Option α) ≠ (none : Option (Option α))
    ∧ ((eligibilityStep a (none : Option α)).2 = true →
        DispatchEvent.executed a.name
            (execKwargs iface myNodeNum none conn a) ∈
          runOneAction iface myNodeNum none conn a) := by
  refine ⟨by simp_all [execKwargs], by simp, ?_⟩
  intro he
  rw [runOneAction_eq, he]
  simp

/-- C9 witness: the ping-pong module on a tick gets `packet=None`. -/
theorem tick_packet_param_bound_to_none_witness :
    (execKwargs (0 : Nat) 1 none none pingModule).packetKw = some none :=
  (tick_packet_param_bound_to_none 0 1 none pingModule (by decide)).1

/-- C10: `should_run_on_packet` is called with no arguments, so for an
action exposing it the whole eligibility step — trace and decision — is
identical for any two packets dispatched in the same action state. -/
theorem packet_eligibility_packet_independent {α : Type} (a : ActionModule)
    (pk₁ pk₂ : α) (h : a.hasShouldRunOnPacket = true) :
    eligibilityStep a (some pk₁) = eligibilityStep a (some pk₂) := by
  simp [eligibilityStep, h]

/-- C10 witness: the welcome-message module decides two distinct concrete
packets identically. -/
theorem packet_eligibility_packet_independent_witness :
    eligibilityStep (α := Nat) welcomeModule (some 5) =
      eligibilityStep welcomeModule (some 99) :=
  packet_eligibility_packet_independent welcomeModule 5 99 rfl

/-- C6 counterexample: a candidate that instantiates without error and
exposes the event-eligibility capability together with `execute` — admitted
according to the claim's wording — is nevertheless skipped by `load_actions`
with a missing-functions warning, because the code's check requires
`should_run` specifically. -/
theorem load_admission_counterexample :
    specAdmits packetOnlyCandidate = true
    ∧ (load_actions [packetOnlyCandidate]).1 = []
    ∧ (load_actions [packetOnlyCandidate]).2 =
        [LoadEvent.skippedMissingFunctions "packet_only"] := by
  decide

/-- C6 amended: a candidate is admitted to the registry iff it instantiates
without error and exposes the time-eligibility capability (`should_run`)
together with an execution capability — event-eligibility alone does not
satisfy the check; a candidate failing the capability check is skipped with
a warning, one that throws during instantiation is skipped with an error
logged, loading continues for the remaining candidates, and the registry
always ends in a valid (possibly empty) list state. -/
theorem load_admission_amended (cands : List Candidate) :
    (load_actions cands).1 =
        ((cands.filter isLoadableFile).filter codeAdmits).map Candidate.module
    ∧ (load_actions cands).2 =
        (cands.filter isLoadableFile).map loadEventFor := by
  induction cands with
  | nil => simp [load_actions]
  | cons c rest ih =>
    obtain ⟨ih1, ih2⟩ := ih
    cases hf : isLoadableFile c <;>
      cases hi : c.instantiationRaises <;>
        cases h1 : c.module.hasShouldRun <;>
          cases h2 : c.hasExecute <;>
            simp [load_actions, codeAdmits, loadEventFor, hf, hi, h1, h2,
              ih1, ih2]

/-- C8 counterexample: for a loaded action with no metadata capability, the
fallback entry produced by `get_actions_info` has description
`"No description available"`, not `"none"` as the claim states. -/
theorem describe_fallback_counterexample :
    get_actions_info [noInfoModule] =
        [("bare",
          [("name", "bare"), ("description", "No description available")])]
    ∧ get_actions_info [noInfoModule] ≠
        [("bare", [("name", "bare"), ("description", "none")])] := by
  decide

/-- C8 amended: `get_actions_info` returns one entry per loaded action — the
action's own metadata when it exposes `get_info`, and otherwise the fallback
value `{name: id, description: "No description available"}`. -/
theorem describe_fallback_amended (actions : List ActionModule) :
    get_actions_info actions =
      actions.map fun a =>
        (a.name,
          if a.hasGetInfo then a.getInfo
          else [("name", a.name),
                ("description", "No description available")]) := by
  induction actions with
  | nil => rfl
  | cons a rest ih => simp [get_actions_info, ih]

/-- Helper: full case analysis of one connect-and-run phase. -/
theorem connectPhase_cases (env : IterEnv) :
    ((connectPhase env).2 = StepResult.retry ↔ shutdownSignal env = false)
    ∧ ((connectPhase env).2 = StepResult.exitShutdown ↔
        shutdownSignal env = true)
    ∧ (connectPhase env).2 ≠ StepResult.exitConfig
    ∧ (shutdownSignal env = false →
        SupEvent.sleptBackoff 30 ∈ (connectPhase env).1)
    ∧ (env.connect = ConnectOutcome.success →
        SupEvent.closeAttempted ∈ (connectPhase env).1)
    ∧ ∀ b, connectPhase ⟨env.connect, env.inner, b⟩ = connectPhase env := by
  obtain ⟨ec, ei, eb⟩ := env
  cases ec with
  | success => cases ei <;> simp [connectPhase, shutdownSignal]
  | falsy => simp [connectPhase, shutdownSignal]
  | raises e => cases e <;> simp [connectPhase, shutdownSignal]

/-- Helper: with a valid configuration the iteration is the connect phase. -/
theorem superviseStep_valid (cfg : SupConfig) (env : IterEnv)
    (hv : validConfig cfg = true) :
    superviseStep cfg env = connectPhase env := by
  unfold validConfig at hv
  cases hs : cfg.connectionType == "serial" <;>
    cases hip : cfg.connectionType == "ip" <;>
      cases hd : cfg.deviceIp <;>
        simp_all [superviseStep]

/-- Helper: with an invalid configuration the iteration returns with a
configuration diagnostic. -/
theorem superviseStep_invalid (cfg : SupConfig) (env : IterEnv)
    (hv : validConfig cfg = false) :
    superviseStep cfg env =
      ([SupEvent.connecting, SupEvent.configError], StepResult.exitConfig) := by
  unfold validConfig at hv
  cases hs : cfg.connectionType == "serial" <;>
    cases hip : cfg.connectionType == "ip" <;>
      cases hd : cfg.deviceIp <;>
        simp_all [superviseStep]

/-- Helper: the iteration continues exactly on valid-config non-shutdown
environments. -/
theorem superviseStep_retry_iff (cfg : SupConfig) (env : IterEnv) :
    (superviseStep cfg env).2 = StepResult.retry ↔
      (validConfig cfg = true ∧ shutdownSignal env = false) := by
  by_cases hv : validConfig cfg = true
  · rw [superviseStep_valid cfg env hv]
    simp [hv, (connectPhase_cases env).1]
  · rw [superviseStep_invalid cfg env (by simpa using hv)]
    simp [hv]

/-- Helper: the iteration ends with the configuration diagnostic exactly on
invalid configurations. -/
theorem superviseStep_exitConfig_iff (cfg : SupConfig) (env : IterEnv) :
    (superviseStep cfg env).2 = StepResult.exitConfig ↔
      validConfig cfg = false := by
  by_cases hv : validConfig cfg = true
  · rw [superviseStep_valid cfg env hv]
    simp [hv, (connectPhase_cases env).2.2.1]
  · rw [superviseStep_invalid cfg env (by simpa using hv)]
    simpa using hv

/-- Helper: the iteration breaks out exactly on the shutdown signal under a
valid configuration. -/
theorem superviseStep_exitShutdown_iff (cfg : SupConfig) (env : IterEnv) :
    (superviseStep cfg env).2 = StepResult.exitShutdown ↔
      (validConfig cfg = true ∧ shutdownSignal env = true) := by
  by_cases hv : validConfig cfg = true
  · rw [superviseStep_valid cfg env hv]
    simp [hv, (connectPhase_cases env).2.1]
  · rw [superviseStep_invalid cfg env (by simpa using hv)]
    simp [hv]

/-- Helper: a retrying iteration is followed by the rest of the schedule —
the loop goes around again. -/
theorem supervise_cons_retry (cfg : SupConfig) (env : IterEnv)
    (rest : List IterEnv) (h : (superviseStep cfg env).2 = StepResult.retry) :
    supervise cfg (env :: rest) =
      ((superviseStep cfg env).1 ++ (supervise cfg rest).1,
        (supervise cfg rest).2) := by
  simp only [supervise]
  rw [h]

/-- C7: the supervisor loop retries exactly on the recoverable errors — a
valid configuration together with any non-shutdown connect or runtime
failure yields a visible 30-second backoff, a best-effort transport teardown
whenever a transport handle existed, insensitivity to failures while closing
the broken handle, and continuation with a fresh connection attempt; the
loop ends only on a configuration error or the explicit shutdown signal. -/
theorem supervisor_nonfatal_errors_recover (cfg : SupConfig)
    (env : IterEnv) :
    ((superviseStep cfg env).2 = StepResult.retry ↔
        (validConfig cfg = true ∧ shutdownSignal env = false))
    ∧ ((superviseStep cfg env).2 = StepResult.exitConfig ↔
        validConfig cfg = false)
    ∧ ((superviseStep cfg env).2 = StepResult.exitShutdown ↔
        (validConfig cfg = true ∧ shutdownSignal env = true))
    ∧ (validConfig cfg = true → shutdownSignal env = false →
        SupEvent.sleptBackoff 30 ∈ (superviseStep cfg env).1
        ∧ (env.connect = ConnectOutcome.success →
            SupEvent.closeAttempted ∈ (superviseStep cfg env).1))
    ∧ (∀ b, superviseStep cfg ⟨env.connect, env.inner, b⟩ =
        superviseStep cfg env)
    ∧ ((superviseStep cfg env).2 = StepResult.retry →
        ∀ rest, supervise cfg (env :: rest) =
          ((superviseStep cfg env).1 ++ (supervise cfg rest).1,
            (supervise cfg rest).2)) := by
  refine ⟨?_, ?_, ?_, ?_, ?_, ?_⟩
  · rw [superviseStep_retry_iff]
  · rw [superviseStep_exitConfig_iff]
  · rw [superviseStep_exitShutdown_iff]
  · intro hv hsd
    rw [superviseStep_valid cfg env hv]
    exact ⟨(connectPhase_cases env).2.2.2.1 hsd,
      fun hc => (connectPhase_cases env).2.2.2.2.1 hc⟩
  · intro b
    by_cases hv : validConfig cfg = true
    · rw [superviseStep_valid cfg _ hv, superviseStep_valid cfg env hv]
      exact (connectPhase_cases env).2.2.2.2.2 b
    · rw [superviseStep_invalid cfg _ (by simpa using hv),
        superviseStep_invalid cfg env (by simpa using hv)]
  · intro h rest
    exact supervise_cons_retry cfg env rest h

/-- C7 witness: a serial configuration whose connect raises an IO error
retries after the 30-second backoff. -/
theorem supervisor_nonfatal_errors_recover_witness :
    SupEvent.sleptBackoff 30 ∈
      (superviseStep ⟨"serial", "/dev/ttyUSB0", none⟩
        ⟨ConnectOutcome.raises PyExc.connIOError, PyExc.otherError,
          false⟩).1 :=
  ((supervisor_nonfatal_errors_recover ⟨"serial", "/dev/ttyUSB0", none⟩
      ⟨ConnectOutcome.raises PyExc.connIOError, PyExc.otherError,
        false⟩).2.2.2.1 (by decide) (by decide)).1

end MeshtasticBot
